import Mathlib

/-!
Verification of the `joctomap` native bridge header
`src/main/resources/joctomap-natives/src/definitions.h`.

The header is a flat list of C preprocessor string-constant definitions
wrapped in a `DEFINITIONS_H` include guard.  We embed it shallowly as a
list of preprocessor directives together with a small executable
preprocessor that handles `ifndef`/`define`/`endif`, so that both the
values of the constants and the behaviour of the include guard can be
stated and decided.
-/

/-- The replacement text of a C preprocessor macro, restricted to the shapes
that occur (or could occur) in a definitions header: a string literal, a
character literal, an empty replacement (as in the include guard), or
arbitrary non-literal replacement tokens (executable code). -/
inductive MacroBody where
  | stringLit : String → MacroBody
  | charLit : Char → MacroBody
  | emptyBody : MacroBody
  | codeTokens : List String → MacroBody
deriving DecidableEq, Repr

/-- One preprocessor-relevant line of the header: a conditional-inclusion
test, a macro definition, the end of a conditional block, or a line of
ordinary C source text. -/
inductive Directive where
  | ifndef : String → Directive
  | define : String → MacroBody → Directive
  | endOfBlock : Directive
  | sourceLine : String → Directive
deriving DecidableEq, Repr

/-- The full directive sequence of `definitions.h`, in source order:
the `DEFINITIONS_H` include guard around thirteen string-literal macro
definitions (comment lines are not preprocessor directives and are
omitted, as the preprocessor discards them). -/
def definitions_h_file : List Directive :=
  [ Directive.ifndef "DEFINITIONS_H",
    Directive.define "DEFINITIONS_H" MacroBody.emptyBody,
    Directive.define "CLS_STRING" (MacroBody.stringLit "Ljava/lang/String;"),
    Directive.define "CLS_LEAFBBXITERATOR"
      (MacroBody.stringLit "es/usc/citius/lab/joctomap/iterators/LeafBBXIterator"),
    Directive.define "CLS_POINT3D"
      (MacroBody.stringLit "es/usc/citius/lab/motionplanner/core/spatial/Point3D"),
    Directive.define "CLS_JOCTREENODE"
      (MacroBody.stringLit "es/usc/citius/lab/joctomap/octree/JOctreeNode"),
    Directive.define "CLS_JOCTREEKEY"
      (MacroBody.stringLit "es/usc/citius/lab/joctomap/octree/JOctreeKey"),
    Directive.define "CLS_JOCTREE"
      (MacroBody.stringLit "es/usc/citius/lab/joctomap/octree/JOctree"),
    Directive.define "FIELD_PATH" (MacroBody.stringLit "path"),
    Directive.define "FIELD_X" (MacroBody.stringLit "x"),
    Directive.define "FIELD_Y" (MacroBody.stringLit "y"),
    Directive.define "FIELD_Z" (MacroBody.stringLit "z"),
    Directive.define "METHOD_CONSTRUCTOR" (MacroBody.stringLit "<init>"),
    Directive.define "SIGNATURE_FLOAT" (MacroBody.stringLit "F"),
    Directive.define "SIGNATURE_INT" (MacroBody.stringLit "I"),
    Directive.endOfBlock ]

/-- A macro environment: the macros currently defined, with their bodies,
in order of definition. -/
abbrev MacroEnv := List (String × MacroBody)

/-- Whether a macro name is currently defined. -/
def isDefined (env : MacroEnv) (n : String) : Bool :=
  env.any (fun p => p.1 == n)

/-- The preprocessor: walks the directive list, tracking the current depth
of skipped (false) conditional blocks.  At depth 0 an `ifndef` on a defined
name enters a skipped block, a `define` extends the environment, and
`endOfBlock` closes an active block; inside a skipped block only the
nesting depth is tracked and nothing is defined. -/
def process : MacroEnv → Nat → List Directive → MacroEnv
  | env, _, [] => env
  | env, 0, Directive.ifndef n :: rest =>
      if isDefined env n then process env 1 rest else process env 0 rest
  | env, 0, Directive.define n b :: rest => process (env ++ [(n, b)]) 0 rest
  | env, 0, Directive.endOfBlock :: rest => process env 0 rest
  | env, 0, Directive.sourceLine _ :: rest => process env 0 rest
  | env, Nat.succ d, Directive.ifndef _ :: rest => process env (d + 2) rest
  | env, Nat.succ d, Directive.endOfBlock :: rest => process env d rest
  | env, Nat.succ d, Directive.define _ _ :: rest => process env (d + 1) rest
  | env, Nat.succ d, Directive.sourceLine _ :: rest => process env (d + 1) rest

/-- Including `definitions.h` into a given macro environment. -/
def includeHeader (env : MacroEnv) : MacroEnv :=
  process env 0 definitions_h_file

/-- The string constants the header defines, derived by running the
preprocessor on the file from an empty environment and keeping the
string-literal macros (this drops only the empty-bodied guard macro). -/
def definitions_h : List (String × String) :=
  (includeHeader []).filterMap (fun p =>
    match p.2 with
    | MacroBody.stringLit s => some (p.1, s)
    | _ => none)

/-- The value of a named constant of the header, if defined. -/
def macroValue (n : String) : Option String :=
  (definitions_h.find? (fun p => p.1 == n)).map Prod.snd

/-- The comment-delimited category groups of the header, in source order:
each group is the comment heading together with the names of the constants
defined under it. -/
def definitions_h_groups : List (String × List String) :=
  [ ("Classes",
      ["CLS_STRING", "CLS_LEAFBBXITERATOR", "CLS_POINT3D",
       "CLS_JOCTREENODE", "CLS_JOCTREEKEY", "CLS_JOCTREE"]),
    ("Fields", ["FIELD_PATH", "FIELD_X", "FIELD_Y", "FIELD_Z"]),
    ("Methods", ["METHOD_CONSTRUCTOR"]),
    ("Signatures", ["SIGNATURE_FLOAT", "SIGNATURE_INT"]) ]

/-- A character allowed in a Java identifier (ASCII approximation used by
the JVM internal names appearing in this header). -/
def isJavaIdentChar (c : Char) : Bool :=
  c.isAlpha || c.isDigit || c == '_' || c == '$'

/-- A fully-qualified Java class path in JNI internal-name form: nonempty,
made of identifier characters and the `/` package separator, and actually
qualified by at least one `/`. -/
def isFullyQualifiedClassPath (s : String) : Bool :=
  s.length > 0 &&
  s.data.all (fun c => isJavaIdentChar c || c == '/') &&
  s.data.any (fun c => c == '/')

/-- A JNI primitive type descriptor: one of the eight single-letter codes. -/
def isPrimitiveDescriptor (s : String) : Bool :=
  s == "Z" || s == "B" || s == "C" || s == "S" ||
  s == "I" || s == "J" || s == "F" || s == "D"

/-- A JNI reference type descriptor `L<internal class name>;`. -/
def isReferenceDescriptor (s : String) : Bool :=
  match s.data with
  | 'L' :: rest =>
      rest.getLast? == some ';' &&
      rest.dropLast.length > 0 &&
      rest.dropLast.all (fun c => isJavaIdentChar c || c == '/')
  | _ => false

/-- A JNI type-signature string: a primitive descriptor or a reference
descriptor (the only two kinds whose shapes occur in this header). -/
def isJNITypeSignature (s : String) : Bool :=
  isPrimitiveDescriptor s || isReferenceDescriptor s

/-- Whether `pre` is a leading prefix of the string `s`, computed on the
underlying character lists. -/
def hasNamePrefix (pre s : String) : Bool :=
  s.data.take pre.data.length == pre.data

/-- A directive that defines a macro whose body is a string or character
literal. -/
def isLiteralDefine : Directive → Bool
  | Directive.define _ (MacroBody.stringLit _) => true
  | Directive.define _ (MacroBody.charLit _) => true
  | _ => false

/-- A directive belonging to the `DEFINITIONS_H` include-guard skeleton. -/
def isGuardDirective : Directive → Bool
  | Directive.ifndef n => n == "DEFINITIONS_H"
  | Directive.define n MacroBody.emptyBody => n == "DEFINITIONS_H"
  | Directive.endOfBlock => true
  | _ => false

/-- A value in plain JNI internal-name form as claimed: it uses `/` as a
separator, contains no `.`, has no leading `L` and no trailing `;`. -/
def isPlainInternalName (s : String) : Bool :=
  s.data.any (fun c => c == '/') &&
  s.data.all (fun c => c != '.') &&
  s.data.head? != some 'L' &&
  s.data.getLast? != some ';'

/-- C1: The JNI type-signature constants equal their documented descriptor
codes exactly: `SIGNATURE_FLOAT` is the single character `F`,
`SIGNATURE_INT` is the single character `I`, and `CLS_STRING` is the
String reference descriptor `Ljava/lang/String;`. -/
theorem C1_signature_constants_exact :
    macroValue "SIGNATURE_FLOAT" = some "F" ∧ "F".length = 1 ∧
    macroValue "SIGNATURE_INT" = some "I" ∧ "I".length = 1 ∧
    macroValue "CLS_STRING" = some "Ljava/lang/String;" := by
  decide

/-- C2: The macro `CLS_JOCTREE` equals the literal package-qualified class
path of the corresponding Java class. -/
theorem C2_cls_joctree_exact :
    macroValue "CLS_JOCTREE" = some "es/usc/citius/lab/joctomap/octree/JOctree" := by
  decide

/-- C3: Exactly 5 constants of the header have values that are
fully-qualified Java class path strings — the five plain internal-name
constants; `CLS_STRING`, whose value is the descriptor
`Ljava/lang/String;` containing `;`, is not a bare class path, and no
other constant contains a package separator. -/
theorem C3_five_class_path_constants :
    (definitions_h.filter (fun p => isFullyQualifiedClassPath p.2)).map Prod.fst =
      ["CLS_LEAFBBXITERATOR", "CLS_POINT3D", "CLS_JOCTREENODE",
       "CLS_JOCTREEKEY", "CLS_JOCTREE"] ∧
    (definitions_h.filter (fun p => isFullyQualifiedClassPath p.2)).length = 5 := by
  decide

/-- C4: The header defines exactly 4 field-name constants, `FIELD_PATH`,
`FIELD_X`, `FIELD_Y` and `FIELD_Z`, with values `path`, `x`, `y` and `z`;
they are exactly the `Fields` group and exactly the `FIELD`-prefixed
macros. -/
theorem C4_four_field_constants :
    definitions_h.filter (fun p => hasNamePrefix "FIELD" p.1) =
      [("FIELD_PATH", "path"), ("FIELD_X", "x"),
       ("FIELD_Y", "y"), ("FIELD_Z", "z")] ∧
    (definitions_h_groups.find? (fun g => g.1 == "Fields")).map Prod.snd =
      some ["FIELD_PATH", "FIELD_X", "FIELD_Y", "FIELD_Z"] := by
  decide

/-- C5: The header defines exactly 1 method-name constant,
`METHOD_CONSTRUCTOR`, with value `<init>`; it is exactly the `Methods`
group and exactly the `METHOD`-prefixed macros. -/
theorem C5_one_method_constant :
    definitions_h.filter (fun p => hasNamePrefix "METHOD" p.1) =
      [("METHOD_CONSTRUCTOR", "<init>")] ∧
    (definitions_h_groups.find? (fun g => g.1 == "Methods")).map Prod.snd =
      some ["METHOD_CONSTRUCTOR"] := by
  decide

/-- C6 counterexample: the claim that no constant other than the two
signature constants is a JNI type-signature string is false — `CLS_STRING`
is defined with value `Ljava/lang/String;`, which is a JNI type-signature
string (a reference descriptor), yet `CLS_STRING` is neither
`SIGNATURE_FLOAT` nor `SIGNATURE_INT`. -/
theorem C6_counterexample :
    ("CLS_STRING", "Ljava/lang/String;") ∈ definitions_h ∧
    isJNITypeSignature "Ljava/lang/String;" = true ∧
    definitions_h.all (fun p =>
      !(isJNITypeSignature p.2) || p.1 == "SIGNATURE_FLOAT" ||
        p.1 == "SIGNATURE_INT") = false := by
  decide

/-- C6 amended: the header defines exactly 2 constants whose values are
primitive type descriptors, `SIGNATURE_FLOAT` and `SIGNATURE_INT`; the
constants whose values are JNI type-signature strings, however, are
exactly those two together with `CLS_STRING` (a reference descriptor). -/
theorem C6_two_primitive_descriptor_constants :
    (definitions_h.filter (fun p => isPrimitiveDescriptor p.2)).map Prod.fst =
      ["SIGNATURE_FLOAT", "SIGNATURE_INT"] ∧
    (definitions_h.filter (fun p => isJNITypeSignature p.2)).map Prod.fst =
      ["CLS_STRING", "SIGNATURE_FLOAT", "SIGNATURE_INT"] := by
  decide

/-- C7 counterexample: the constants of the file do not partition into six
category groups — the file's comment-delimited groups number four
(`Classes`, `Fields`, `Methods`, `Signatures`), not six. -/
theorem C7_counterexample : ¬ definitions_h_groups.length = 6 := by
  decide

/-- C7 amended: the constants defined in the file partition into exactly
four comment-delimited category groups, which cover every defined constant
exactly once and in source order. -/
theorem C7_four_category_groups :
    definitions_h_groups.length = 4 ∧
    (definitions_h_groups.map Prod.snd).flatten = definitions_h.map Prod.fst ∧
    (definitions_h.map Prod.fst).Nodup := by
  decide

/-- C8: Every directive of the file is either part of the include-guard
skeleton or a definition binding a name to a string/character literal —
there is no executable logic — and processing the file from the empty
environment yields exactly the fixed literal table below, one fixed
literal per constant. -/
theorem C8_no_executable_logic :
    definitions_h_file.all (fun d => isLiteralDefine d || isGuardDirective d) = true ∧
    definitions_h =
      [("CLS_STRING", "Ljava/lang/String;"),
       ("CLS_LEAFBBXITERATOR", "es/usc/citius/lab/joctomap/iterators/LeafBBXIterator"),
       ("CLS_POINT3D", "es/usc/citius/lab/motionplanner/core/spatial/Point3D"),
       ("CLS_JOCTREENODE", "es/usc/citius/lab/joctomap/octree/JOctreeNode"),
       ("CLS_JOCTREEKEY", "es/usc/citius/lab/joctomap/octree/JOctreeKey"),
       ("CLS_JOCTREE", "es/usc/citius/lab/joctomap/octree/JOctree"),
       ("FIELD_PATH", "path"), ("FIELD_X", "x"),
       ("FIELD_Y", "y"), ("FIELD_Z", "z"),
       ("METHOD_CONSTRUCTOR", "<init>"),
       ("SIGNATURE_FLOAT", "F"), ("SIGNATURE_INT", "I")] := by
  decide

/-- C9: Including the header twice yields the same macro environment as
including it once: on the second inclusion the guard macro
`DEFINITIONS_H` is already defined, so the whole guarded block is skipped
and no definition is added. -/
theorem C9_include_guard_idempotent :
    includeHeader (includeHeader []) = includeHeader [] := by
  decide

/-- C10: Each of `CLS_LEAFBBXITERATOR`, `CLS_POINT3D`, `CLS_JOCTREENODE`,
`CLS_JOCTREEKEY` and `CLS_JOCTREE` is in JNI internal-name form (`/` as
separator, no `.`, no leading `L`, no trailing `;`), while `CLS_STRING`
alone is in JNI reference-descriptor form `L...;` and is not a plain
internal name. -/
theorem C10_internal_name_forms :
    (["CLS_LEAFBBXITERATOR", "CLS_POINT3D", "CLS_JOCTREENODE",
      "CLS_JOCTREEKEY", "CLS_JOCTREE"].all (fun n =>
        match macroValue n with
        | some v => isPlainInternalName v
        | none => false)) = true ∧
    macroValue "CLS_STRING" = some "Ljava/lang/String;" ∧
    isReferenceDescriptor "Ljava/lang/String;" = true ∧
    isPlainInternalName "Ljava/lang/String;" = false ∧
    definitions_h.all (fun p =>
      !(isPlainInternalName p.2) ||
        ["CLS_LEAFBBXITERATOR", "CLS_POINT3D", "CLS_JOCTREENODE",
         "CLS_JOCTREEKEY", "CLS_JOCTREE"].contains p.1) = true := by
  decide
